import Mathlib

/-!
Shallow embedding of the generate/poll/materialize mechanism of the
autoresum backend (src/autoresum-backend): the resume and cover-letter
repositories, the Celery-backed native task store and Django cache as the
endpoints observe them, and the poll/materialize endpoints of
resumes/views.py and cover_letters/views.py.

Machine conventions:
* Python dicts whose keys are fixed in the source are structures with
  Option fields (a `none` field is an absent key; `Option.getD` is
  Python's `dict.get(key, default)`).
* JSON blobs that the core never inspects (work experience lists, etc.)
  are opaque strings; `json.dumps`/`json.loads` round-tripping through the
  cache is the identity.
* Wall-clock time is an explicit `now : Nat` (seconds); `datetime.now()`
  and cache-expiry arithmetic use it.
* Fallible calls return `Except`; an uncaught Python exception is an
  `Except.error`.
* The Celery result backend is modelled from the spec and the view
  comments: a handle whose metadata is absent from the backend raises
  KeyError on access ("Raised if task metadata is missing in Redis"),
  a handle whose task the backend cannot find raises BackendError, and
  any other backend fault raises a generic exception.
-/

namespace Autoresum

/-- Split a character list at every space, keeping empty segments —
the semantics of Python `split(" ")`, realized on the character list so
that it evaluates by kernel reduction. -/
def splitSpaces : List Char → List String
  | [] => [""]
  | c :: cs =>
    let rest := splitSpaces cs
    if c = ' ' then "" :: rest
    else
      match rest with
      | [] => [String.mk [c]]
      | t :: ts => String.mk (c :: t.data) :: ts

/-- Python `s.split(" ")` (single-space separator, no maxsplit). -/
def pySplit (s : String) : List String := splitSpaces s.data

/-- Python `s.split(" ", 1)` (maxsplit = 1). -/
def pySplitOnce (s : String) : List String :=
  match pySplit s with
  | [] => [s]
  | [x] => [x]
  | x :: rest => [x, String.intercalate " " rest]

/-- Python `s.strip()` (the only whitespace occurring here is the space). -/
def pyStrip (s : String) : String :=
  String.mk (((s.data.dropWhile (fun c => c = ' ')).reverse.dropWhile
    (fun c => c = ' ')).reverse)

/-- Python truthiness of an optional integer id (`None` and `0` are falsy). -/
def truthyId : Option Nat → Bool
  | none => false
  | some n => n != 0

/-- A Python exception escaping a repository call. -/
inductive PyExc
  | indexError
  | dbError
  | doesNotExist
deriving Repr, DecidableEq

/-- An authenticated user (users.models.User as seen by the core). -/
structure UserRec where
  id : Nat
  email : String
deriving Repr, DecidableEq

/-- The `parsed_content` mapping produced by the resume generator
(resumes/services/ai_generator.py output as consumed by the repository). -/
structure ParsedResume where
  full_name : Option String := none
  email : Option String := none
  phone_number : Option String := none
  work_experience : Option String := none
  education : Option String := none
  skills : Option String := none
  certifications : Option String := none
  languages : Option String := none
  resume_summary : Option String := none
deriving Repr, DecidableEq

/-- A resume-task result dict: `original_content`, `parsed_content`, and
for update tasks also `resume_id` (resumes/tasks.py). -/
structure ResumePayload where
  original_content : String
  parsed_content : ParsedResume
  resume_id : Option Nat := none
deriving Repr, DecidableEq

/-- A row of the Resume table (resumes/models.py), restricted to the
fields the core mechanism reads or writes. -/
structure ResumeRow where
  id : Nat
  user : Nat
  first_name : String
  last_name : String
  email : String
  phone_number : String
  work_experience : String
  education : String
  skills : String
  certifications : String
  languages : String
  resume_summary : String
  original_content : String
  update_generate_content_count : Nat
  modified_at : Nat
deriving Repr, DecidableEq

/-- The Resume table plus the id sequence; `createFault` models the
database backend refusing an INSERT (`Resume.objects.create` raising). -/
structure ResumeDB where
  rows : List ResumeRow
  nextId : Nat
  createFault : Bool
deriving Repr, DecidableEq

/-- The `parsed_content` mapping for cover letters; the create flow reads
keys `name`, `email`, `phone`, `cover_letter`, `company_name`, `job_title`
while the update flow reads `first_name`, `last_name`, `email`,
`phone_number`, `cover_letter_content`, `company_name`, `job_title`. -/
structure ParsedCoverLetter where
  name : Option String := none
  email : Option String := none
  phone : Option String := none
  cover_letter : Option String := none
  company_name : Option String := none
  job_title : Option String := none
  first_name : Option String := none
  last_name : Option String := none
  phone_number : Option String := none
  cover_letter_content : Option String := none
deriving Repr, DecidableEq

/-- A cover-letter-task result dict (cover_letters/tasks.py). -/
structure CoverLetterPayload where
  original_content : String
  parsed_content : ParsedCoverLetter
  cover_letter_id : Option Nat := none
deriving Repr, DecidableEq

/-- A row of the CoverLetter table (cover_letters/models.py), restricted
to the fields the core mechanism reads or writes. -/
structure CoverLetterRow where
  id : Nat
  user : Nat
  name : Option String
  email : Option String
  phone_number : Option String
  cover_letter_content : Option String
  company_name : Option String
  job_title : Option String
  parsed_content : ParsedCoverLetter
  generated_content : String
  update_generate_content_count : Nat
  modified_at : Nat
deriving Repr, DecidableEq

/-- The CoverLetter table plus the id sequence and INSERT-fault flag. -/
structure CoverLetterDB where
  rows : List CoverLetterRow
  nextId : Nat
  createFault : Bool
deriving Repr, DecidableEq

/-! ### The Django cache (Result Cache) -/

/-- One cache entry: `cache.set key value (timeout := ttl)` at time `now`
stores the value until `now + ttl`. -/
structure CacheEntry (π : Type) where
  key : String
  value : π
  expiresAt : Nat
deriving Repr, DecidableEq

abbrev Cache (π : Type) := List (CacheEntry π)

def cacheSet {π : Type} (c : Cache π) (k : String) (v : π) (timeout now : Nat) : Cache π :=
  { key := k, value := v, expiresAt := now + timeout } :: c.filter (fun e => e.key != k)

def cacheGet {π : Type} (c : Cache π) (k : String) (now : Nat) : Option π :=
  match c.find? (fun e => e.key == k) with
  | some e => if now < e.expiresAt then some e.value else none
  | none => none

def cacheDelete {π : Type} (c : Cache π) (k : String) : Cache π :=
  c.filter (fun e => e.key != k)

/-! ### The native task store (Celery result backend) as observed by the views -/

/-- Celery task states relevant to the views. `ready` mirrors Celery's
READY_STATES = SUCCESS, FAILURE, REVOKED. -/
inductive TaskState
  | pending
  | started
  | success
  | failure
  | revoked
deriving Repr, DecidableEq

def TaskState.ready : TaskState → Bool
  | .success => true
  | .failure => true
  | .revoked => true
  | _ => false

/-- What accessing `AsyncResult(handle)` observes: live metadata, metadata
missing from Redis (KeyError), backend unable to find the task
(BackendError), or any other unexpected backend fault. -/
inductive NativeEntry (π : Type)
  | found (state : TaskState) (result : Option π)
  | missing
  | backendGone
  | faulty
deriving Repr, DecidableEq

abbrev NativeStore (π : Type) := List (String × NativeEntry π)

/-- A handle with no backend record at all has its metadata missing. -/
def lookupNative {π : Type} (ns : NativeStore π) (h : String) : NativeEntry π :=
  match ns.find? (fun e => e.fst == h) with
  | some e => e.snd
  | none => .missing

def setNative {π : Type} (ns : NativeStore π) (h : String) (e : NativeEntry π) : NativeStore π :=
  (h, e) :: ns.filter (fun e => e.fst != h)

/-- `AsyncResult(h).forget()`: the backend drops the task metadata. -/
def forgetNative {π : Type} (ns : NativeStore π) (h : String) : NativeStore π :=
  setNative ns h .missing

/-- `AsyncResult(h).revoke()`: a live task is marked revoked. -/
def revokeNative {π : Type} (ns : NativeStore π) (h : String) : NativeStore π :=
  match lookupNative ns h with
  | .found _ r => setNative ns h (.found .revoked r)
  | _ => ns

/-! ### ResumeRepository (resumes/repositories.py) -/

namespace ResumeRepository

/-- `save_task_result` (resumes/repositories.py lines 65-67):
`cache.set(key, json.dumps(result), timeout=600)`. -/
def save_task_result (c : Cache ResumePayload) (key : String) (result : ResumePayload)
    (now : Nat) : Cache ResumePayload :=
  cacheSet c key result 600 now

/-- `get_task_result` (lines 74-77). -/
def get_task_result (c : Cache ResumePayload) (key : String) (now : Nat) :
    Option ResumePayload :=
  cacheGet c key now

/-- `delete_task` (lines 79-81). -/
def delete_task (c : Cache ResumePayload) (key : String) : Cache ResumePayload :=
  cacheDelete c key

/-- `create_resume` (lines 86-115): first/last name from
`content.get("full_name", "").split(" ", 1)` with length guards, the
remaining fields from `content.get(...)` defaults, row owned by `user`. -/
def create_resume (original_resume_content : String) (content : ParsedResume)
    (user : UserRec) (db : ResumeDB) (now : Nat) :
    Except PyExc (ResumeRow × ResumeDB) :=
  let full_name := pySplitOnce (content.full_name.getD "")
  let first_name := if full_name.length > 0 then full_name.headD "" else ""
  let last_name := if full_name.length > 1 then full_name.getD 1 "" else ""
  if db.createFault then .error .dbError
  else
    let row : ResumeRow := {
      id := db.nextId
      user := user.id
      first_name := first_name
      last_name := last_name
      email := content.email.getD user.email
      phone_number := content.phone_number.getD ""
      work_experience := content.work_experience.getD ""
      education := content.education.getD ""
      skills := content.skills.getD ""
      certifications := content.certifications.getD ""
      languages := content.languages.getD ""
      resume_summary := content.resume_summary.getD ""
      original_content := original_resume_content
      update_generate_content_count := 1
      modified_at := now }
    .ok (row, { db with rows := db.rows ++ [row], nextId := db.nextId + 1 })

/-- The field writes of `Resume.objects.filter(id=resume_id).update(**temp,
original_content=..., modified_at=datetime.now())` applied to one row:
only keys present in `content` among the allowed list are written. -/
def applyResumeUpdate (r : ResumeRow) (first last orig : String)
    (content : ParsedResume) (now : Nat) : ResumeRow :=
  { r with
    first_name := first
    last_name := last
    email := content.email.getD r.email
    phone_number := content.phone_number.getD r.phone_number
    work_experience := content.work_experience.getD r.work_experience
    education := content.education.getD r.education
    skills := content.skills.getD r.skills
    certifications := content.certifications.getD r.certifications
    languages := content.languages.getD r.languages
    resume_summary := content.resume_summary.getD r.resume_summary
    original_content := orig
    modified_at := now }

/-- `update_resume` (lines 117-153). `temp` takes
`content.get("full_name", "John Doe").split(" ")[0]` and `[1]`; indexing
`[1]` raises IndexError when the split has a single token. The queryset is
`Resume.objects.filter(id=resume_id)` - the `user` argument is accepted
but NOT part of the filter. Returns `update > 0`. -/
def update_resume (resume_id : Nat) (original_resume_content : String)
    (content : ParsedResume) (_user : UserRec) (db : ResumeDB) (now : Nat) :
    Except PyExc (Bool × ResumeDB) :=
  let parts := pySplit (content.full_name.getD "John Doe")
  match parts[1]? with
  | none => .error .indexError
  | some last =>
    let first := parts.headD ""
    let matched := db.rows.filter (fun r => r.id == resume_id)
    let rows := db.rows.map (fun r =>
      if r.id == resume_id then
        applyResumeUpdate r first last original_resume_content content now
      else r)
    .ok (decide (0 < matched.length), { db with rows := rows })

end ResumeRepository

/-! ### CoverLetterRepository (cover_letters/repositories.py) -/

namespace CoverLetterRepository

/-- `save_task_result` (cover_letters/repositories.py lines 46-48):
`cache.set(key, json.dumps(result), timeout=600)`. -/
def save_task_result (c : Cache CoverLetterPayload) (key : String)
    (result : CoverLetterPayload) (now : Nat) : Cache CoverLetterPayload :=
  cacheSet c key result 600 now

/-- `get_task_result` (lines 55-58). -/
def get_task_result (c : Cache CoverLetterPayload) (key : String) (now : Nat) :
    Option CoverLetterPayload :=
  cacheGet c key now

/-- `delete_task` (lines 60-62). -/
def delete_task (c : Cache CoverLetterPayload) (key : String) : Cache CoverLetterPayload :=
  cacheDelete c key

/-- `create_cover_letter` (lines 64-88). -/
def create_cover_letter (original_cover_letter_content : String)
    (content : ParsedCoverLetter) (user : UserRec) (db : CoverLetterDB) (now : Nat) :
    Except PyExc (CoverLetterRow × CoverLetterDB) :=
  if db.createFault then .error .dbError
  else
    let row : CoverLetterRow := {
      id := db.nextId
      user := user.id
      name := content.name
      email := content.email
      phone_number := content.phone
      cover_letter_content := content.cover_letter
      company_name := content.company_name
      job_title := content.job_title
      parsed_content := content
      generated_content := original_cover_letter_content
      update_generate_content_count := 1
      modified_at := now }
    .ok (row, { db with rows := db.rows ++ [row], nextId := db.nextId + 1 })

/-- The field writes of
`CoverLetter.objects.filter(id=cover_letter_id, user=user).update(**temp, ...)`
applied to one row. -/
def applyCoverLetterUpdate (r : CoverLetterRow) (nm orig : String)
    (content : ParsedCoverLetter) (now : Nat) : CoverLetterRow :=
  { r with
    name := some nm
    email := content.email.orElse (fun _ => r.email)
    phone_number := content.phone_number.orElse (fun _ => r.phone_number)
    cover_letter_content := content.cover_letter_content.orElse (fun _ => r.cover_letter_content)
    company_name := content.company_name.orElse (fun _ => r.company_name)
    job_title := content.job_title.orElse (fun _ => r.job_title)
    generated_content := orig
    modified_at := now }

/-- `update_cover_letter` (lines 90-125). `name` is
`f"{first_name} {last_name}".strip() or "John Doe"`; the queryset filter
here DOES include `user=user`. Returns `update > 0`. -/
def update_cover_letter (cover_letter_id : Nat) (original_cover_letter_content : String)
    (content : ParsedCoverLetter) (user : UserRec) (db : CoverLetterDB) (now : Nat) :
    Except PyExc (Bool × CoverLetterDB) :=
  let joined := pyStrip ((content.first_name.getD "") ++ " " ++ (content.last_name.getD ""))
  let nm := if joined = "" then "John Doe" else joined
  let matched := db.rows.filter (fun r => r.id == cover_letter_id && r.user == user.id)
  let rows := db.rows.map (fun r =>
    if r.id == cover_letter_id && r.user == user.id then
      applyCoverLetterUpdate r nm original_cover_letter_content content now
    else r)
  .ok (decide (0 < matched.length), { db with rows := rows })

end CoverLetterRepository

/-! ### HTTP responses of the core endpoints -/

/-- The distinct responses the poll/materialize and submit endpoints can
return (both record kinds share the response shapes; messages differ only
in wording). -/
inductive Resp
  | createdRecord (id : Nat)
  | updatedRecord (id : Nat)
  | taskFailed
  | noValidData
  | materializeFailed
  | recordIdMissing
  | saveFailed
  | ownershipNotFound
  | pendingResp (state : TaskState)
  | taskNotFound
  | metadataMissing
  | unexpectedError
  | freeLimitReached
  | taskQueued (handle : String)
  | requestInvalid
deriving Repr, DecidableEq

/-- The HTTP status code of each response, as written in the views. -/
def Resp.code : Resp → Nat
  | .createdRecord _ => 201
  | .updatedRecord _ => 200
  | .taskFailed => 400
  | .noValidData => 400
  | .materializeFailed => 500
  | .recordIdMissing => 400
  | .saveFailed => 500
  | .ownershipNotFound => 404
  | .pendingResp _ => 202
  | .taskNotFound => 404
  | .metadataMissing => 400
  | .unexpectedError => 500
  | .freeLimitReached => 400
  | .taskQueued _ => 200
  | .requestInvalid => 400

/-- The mutable state the resume poll endpoints act on: the native task
store, the Result Cache, and the Resume table. -/
structure ResumeSys where
  native : NativeStore ResumePayload
  cache : Cache ResumePayload
  db : ResumeDB
deriving Repr, DecidableEq

/-- The mutable state the cover-letter poll endpoints act on. -/
structure CoverLetterSys where
  native : NativeStore CoverLetterPayload
  cache : Cache CoverLetterPayload
  db : CoverLetterDB
deriving Repr, DecidableEq

/-- `Resume.objects.get(id=rid, user=user)` as an Option. -/
def objectsGetResume (db : ResumeDB) (rid : Nat) (user : UserRec) : Option ResumeRow :=
  db.rows.find? (fun r => r.id == rid && r.user == user.id)

/-- `CoverLetter.objects.get(id=clid, user=user)` as an Option. -/
def objectsGetCoverLetter (db : CoverLetterDB) (clid : Nat) (user : UserRec) :
    Option CoverLetterRow :=
  db.rows.find? (fun r => r.id == clid && r.user == user.id)

/-! ### GeneratedAIContentView.get (resumes/views.py lines 94-302)

The create-flow poll endpoint.  The outer try/except of the source is the
match on `lookupNative`: a BackendError on backend access yields 404, a
KeyError (metadata missing) yields 400 after a best-effort forget, any
other backend fault yields 500 after a best-effort revoke and forget. -/

def GeneratedAIContentView.get (user : UserRec) (h : String) (now : Nat)
    (st : ResumeSys) : Resp × ResumeSys :=
  match lookupNative st.native h with
  | .backendGone => (.taskNotFound, st)
  | .missing => (.metadataMissing, { st with native := forgetNative st.native h })
  | .faulty => (.unexpectedError, { st with native := forgetNative (revokeNative st.native h) h })
  | .found state result =>
    if state = .failure then (.taskFailed, st)
    else if state.ready then
      let cached0 := ResumeRepository.get_task_result st.cache h now
      let (cached, cache1) : Option ResumePayload × Cache ResumePayload :=
        match cached0 with
        | some d => (some d, st.cache)
        | none =>
          if state = .success then
            match result with
            | some r => (some r, ResumeRepository.save_task_result st.cache h r now)
            | none => (none, st.cache)
          else (none, st.cache)
      match cached with
      | some data =>
        if state = .success then
          match ResumeRepository.create_resume data.original_content data.parsed_content
              user st.db now with
          | .ok (row, db2) =>
            (.createdRecord row.id,
             { native := forgetNative st.native h
               cache := ResumeRepository.delete_task cache1 h
               db := db2 })
          | .error _ => (.materializeFailed, { st with cache := cache1 })
        else (.noValidData, { st with cache := cache1 })
      | none => (.noValidData, { st with cache := cache1 })
    else
      match ResumeRepository.get_task_result st.cache h now with
      | some data =>
        match ResumeRepository.create_resume data.original_content data.parsed_content
            user st.db now with
        | .ok (row, db2) =>
          (.createdRecord row.id,
           { native := forgetNative st.native h
             cache := ResumeRepository.delete_task st.cache h
             db := db2 })
        | .error _ => (.materializeFailed, st)
      | none => (.pendingResp state, st)

/-! ### UpdatedGeneratedAIContentView.get (resumes/views.py lines 461-725)

The update-flow poll endpoint.  In the ready branch a falsy `resume_id`
yields 400; after a successful repository update the view re-reads the row
with an ownership-scoped get (404 on DoesNotExist, cache NOT cleaned).  In
the pending-with-cache branch a falsy `resume_id` or `update_success ==
False` falls through to the 202 pending response, and a DoesNotExist on
the re-read is caught by the generic handler as a 500. -/

def UpdatedGeneratedAIContentView.get (user : UserRec) (h : String) (now : Nat)
    (st : ResumeSys) : Resp × ResumeSys :=
  match lookupNative st.native h with
  | .backendGone => (.taskNotFound, st)
  | .missing => (.metadataMissing, { st with native := forgetNative st.native h })
  | .faulty => (.unexpectedError, { st with native := forgetNative (revokeNative st.native h) h })
  | .found state result =>
    if state = .failure then (.taskFailed, st)
    else if state.ready then
      let cached0 := ResumeRepository.get_task_result st.cache h now
      let (cached, cache1) : Option ResumePayload × Cache ResumePayload :=
        match cached0 with
        | some d => (some d, st.cache)
        | none =>
          if state = .success then
            match result with
            | some r => (some r, ResumeRepository.save_task_result st.cache h r now)
            | none => (none, st.cache)
          else (none, st.cache)
      match cached with
      | some data =>
        if state = .success then
          if truthyId data.resume_id then
            let rid := data.resume_id.getD 0
            match ResumeRepository.update_resume rid data.original_content
                data.parsed_content user st.db now with
            | .ok (true, db2) =>
              match objectsGetResume db2 rid user with
              | some row =>
                (.updatedRecord row.id,
                 { native := forgetNative st.native h
                   cache := ResumeRepository.delete_task cache1 h
                   db := db2 })
              | none => (.ownershipNotFound, { st with cache := cache1, db := db2 })
            | .ok (false, db2) => (.saveFailed, { st with cache := cache1, db := db2 })
            | .error _ => (.materializeFailed, { st with cache := cache1 })
          else (.recordIdMissing, { st with cache := cache1 })
        else (.noValidData, { st with cache := cache1 })
      | none => (.noValidData, { st with cache := cache1 })
    else
      match ResumeRepository.get_task_result st.cache h now with
      | some data =>
        if truthyId data.resume_id then
          let rid := data.resume_id.getD 0
          match ResumeRepository.update_resume rid data.original_content
              data.parsed_content user st.db now with
          | .ok (true, db2) =>
            match objectsGetResume db2 rid user with
            | some row =>
              (.updatedRecord row.id,
               { native := forgetNative st.native h
                 cache := ResumeRepository.delete_task st.cache h
                 db := db2 })
            | none => (.materializeFailed, { st with db := db2 })
          | .ok (false, db2) => (.pendingResp state, { st with db := db2 })
          | .error _ => (.materializeFailed, st)
        else (.pendingResp state, st)
      | none => (.pendingResp state, st)

/-! ### ViewGeneratedCoverLetterContentView.get (cover_letters/views.py lines 93-293)

The cover-letter create-flow poll endpoint; same state machine as the
resume create-flow poll with `create_cover_letter` as the materializer. -/

def ViewGeneratedCoverLetterContentView.get (user : UserRec) (h : String) (now : Nat)
    (st : CoverLetterSys) : Resp × CoverLetterSys :=
  match lookupNative st.native h with
  | .backendGone => (.taskNotFound, st)
  | .missing => (.metadataMissing, { st with native := forgetNative st.native h })
  | .faulty => (.unexpectedError, { st with native := forgetNative (revokeNative st.native h) h })
  | .found state result =>
    if state = .failure then (.taskFailed, st)
    else if state.ready then
      let cached0 := CoverLetterRepository.get_task_result st.cache h now
      let (cached, cache1) : Option CoverLetterPayload × Cache CoverLetterPayload :=
        match cached0 with
        | some d => (some d, st.cache)
        | none =>
          if state = .success then
            match result with
            | some r => (some r, CoverLetterRepository.save_task_result st.cache h r now)
            | none => (none, st.cache)
          else (none, st.cache)
      match cached with
      | some data =>
        if state = .success then
          match CoverLetterRepository.create_cover_letter data.original_content
              data.parsed_content user st.db now with
          | .ok (row, db2) =>
            (.createdRecord row.id,
             { native := forgetNative st.native h
               cache := CoverLetterRepository.delete_task cache1 h
               db := db2 })
          | .error _ => (.materializeFailed, { st with cache := cache1 })
        else (.noValidData, { st with cache := cache1 })
      | none => (.noValidData, { st with cache := cache1 })
    else
      match CoverLetterRepository.get_task_result st.cache h now with
      | some data =>
        match CoverLetterRepository.create_cover_letter data.original_content
            data.parsed_content user st.db now with
        | .ok (row, db2) =>
          (.createdRecord row.id,
           { native := forgetNative st.native h
             cache := CoverLetterRepository.delete_task st.cache h
             db := db2 })
        | .error _ => (.materializeFailed, st)
      | none => (.pendingResp state, st)

/-! ### Background worker: update_resume_content_task (resumes/tasks.py lines 36-67)

The generator call is an external collaborator; its output is the `gen`
argument.  The task looks up the user and the user-owned resume (raising
ValueError otherwise), increments `update_generate_content_count` on the
row and saves it, then returns the result dict carrying `resume_id`. -/

structure GenResult where
  original_content : String
  parsed_content : ParsedResume
deriving Repr, DecidableEq

def update_resume_content_task (resume_id : Nat) (user_id : Nat)
    (users : List UserRec) (gen : GenResult) (db : ResumeDB) :
    Except PyExc (ResumePayload × ResumeDB) :=
  match users.find? (fun u => u.id == user_id) with
  | none => .error .doesNotExist
  | some user =>
    match db.rows.find? (fun r => r.id == resume_id && r.user == user.id) with
    | none => .error .doesNotExist
    | some _ =>
      let rows := db.rows.map (fun r =>
        if r.id == resume_id && r.user == user.id then
          { r with update_generate_content_count := r.update_generate_content_count + 1 }
        else r)
      .ok ({ original_content := gen.original_content
             parsed_content := gen.parsed_content
             resume_id := some resume_id },
           { db with rows := rows })

/-! ### The update-generation submit endpoints (free-tier cap) -/

/-- State for the submit endpoints: the two record tables, the set of
users holding a SubscriptionPlan row, and the handles of enqueued
background tasks. -/
structure SubmitSys where
  db : ResumeDB
  cldb : CoverLetterDB
  subs : List Nat
  queued : List String
deriving Repr, DecidableEq

/-- `UpdateGenerateAIContentView.create` (resumes/views.py lines 415-452).
The whole body sits in a bare try/except returning the 400
serializer-errors response, so a missing resume or missing subscription
lands there; `newHandle` is the task id Celery assigns on enqueue.  A
request whose serializer is invalid falls off the function (no return
statement), surfacing as a framework-level error. -/
def UpdateGenerateAIContentView.create (valid : Bool) (user : UserRec)
    (resume_id : Nat) (newHandle : String) (st : SubmitSys) : Resp × SubmitSys :=
  if valid then
    match st.db.rows.find? (fun r => r.id == resume_id && r.user == user.id) with
    | none => (.requestInvalid, st)
    | some resume =>
      if st.subs.contains user.id then
        if resume.update_generate_content_count ≥ 3 then (.freeLimitReached, st)
        else (.taskQueued newHandle, { st with queued := newHandle :: st.queued })
      else (.requestInvalid, st)
  else (.unexpectedError, st)

/-- `UpdateGenerateAICoverLetterContentView.create` (cover_letters/views.py
lines 468-493).  `get_object` runs before serializer validation and raises
Http404 when the user-owned cover letter is absent; there is no
subscription lookup in this flow. -/
def UpdateGenerateAICoverLetterContentView.create (valid : Bool) (user : UserRec)
    (cover_letter_id : Nat) (newHandle : String) (st : SubmitSys) : Resp × SubmitSys :=
  match st.cldb.rows.find? (fun r => r.id == cover_letter_id && r.user == user.id) with
  | none => (.ownershipNotFound, st)
  | some cl =>
    if valid then
      if cl.update_generate_content_count ≥ 3 then (.freeLimitReached, st)
      else (.taskQueued newHandle, { st with queued := newHandle :: st.queued })
    else (.requestInvalid, st)

/-! ### Concrete fixtures used by witnesses and counterexamples -/

def userA : UserRec := { id := 1, email := "a@x.test" }

def pcJane : ParsedResume := { full_name := some "Jane Doe", email := some "jane@x.test" }

def payCreate : ResumePayload :=
  { original_content := "orig-md", parsed_content := pcJane, resume_id := none }

def payUpdate7 : ResumePayload :=
  { original_content := "regen-md", parsed_content := pcJane, resume_id := some 7 }

def payNoId : ResumePayload :=
  { original_content := "regen-md", parsed_content := pcJane, resume_id := none }

def payMadonna : ResumePayload :=
  { original_content := "regen-md"
    parsed_content := { full_name := some "Madonna" }
    resume_id := some 7 }

def clpcJane : ParsedCoverLetter :=
  { name := some "Jane Doe", email := some "jane@x.test", cover_letter := some "body"
    company_name := some "Acme", job_title := some "Engineer"
    first_name := some "Jane", last_name := some "Doe" }

def clPayCreate : CoverLetterPayload :=
  { original_content := "orig-md", parsed_content := clpcJane, cover_letter_id := none }

/-- A resume row owned by user 2 (not `userA`). -/
def rowOther : ResumeRow :=
  { id := 7, user := 2, first_name := "Alice", last_name := "Smith"
    email := "alice@x.test", phone_number := "", work_experience := "", education := ""
    skills := "", certifications := "", languages := "", resume_summary := ""
    original_content := "old-md", update_generate_content_count := 1, modified_at := 0 }

def dbOther : ResumeDB := { rows := [rowOther], nextId := 8, createFault := false }

/-- A resume row owned by `userA`. -/
def rowOwn : ResumeRow :=
  { id := 3, user := 1, first_name := "Jane", last_name := "Doe"
    email := "jane@x.test", phone_number := "", work_experience := "", education := ""
    skills := "", certifications := "", languages := "", resume_summary := ""
    original_content := "old-md", update_generate_content_count := 1, modified_at := 0 }

def dbOwn : ResumeDB := { rows := [rowOwn], nextId := 4, createFault := false }

def clRowOther : CoverLetterRow :=
  { id := 7, user := 2, name := some "Alice Smith", email := some "alice@x.test"
    phone_number := none, cover_letter_content := some "old body"
    company_name := some "Acme", job_title := some "Engineer"
    parsed_content := {}, generated_content := "old-md"
    update_generate_content_count := 1, modified_at := 0 }

def clDbOther : CoverLetterDB := { rows := [clRowOther], nextId := 8, createFault := false }

def clRowOwn : CoverLetterRow :=
  { id := 3, user := 1, name := some "Jane Doe", email := some "jane@x.test"
    phone_number := none, cover_letter_content := some "old body"
    company_name := some "Acme", job_title := some "Engineer"
    parsed_content := {}, generated_content := "old-md"
    update_generate_content_count := 1, modified_at := 0 }

def clDbOwn : CoverLetterDB := { rows := [clRowOwn], nextId := 4, createFault := false }

def emptyResumeDB : ResumeDB := { rows := [], nextId := 1, createFault := false }

def faultyResumeDB : ResumeDB := { rows := [], nextId := 1, createFault := true }

def emptyClDB : CoverLetterDB := { rows := [], nextId := 1, createFault := false }

def genJane : GenResult := { original_content := "regen-md", parsed_content := pcJane }

/-- Ready/successful create-flow state with the result already cached. -/
def stReady : ResumeSys :=
  { native := [("t1", .found .success (some payCreate))]
    cache := [{ key := "t1", value := payCreate, expiresAt := 600 }]
    db := emptyResumeDB }

/-- Same as `stReady` but the record-store INSERT faults. -/
def stReadyFault : ResumeSys :=
  { stReady with db := faultyResumeDB }

/-- Pending state with a cache entry present (worker raced ahead). -/
def stPendingCached : ResumeSys :=
  { native := [("t1", .found .pending (some payCreate))]
    cache := [{ key := "t1", value := payCreate, expiresAt := 600 }]
    db := emptyResumeDB }

def stPendingCachedFault : ResumeSys :=
  { stPendingCached with db := faultyResumeDB }

/-- Failed-task state (cache entry present, to show it is never consulted). -/
def stFailed : ResumeSys :=
  { native := [("t1", .found .failure none)]
    cache := [{ key := "t1", value := payCreate, expiresAt := 600 }]
    db := emptyResumeDB }

def stBackendGone : ResumeSys :=
  { native := [("t1", .backendGone)], cache := [], db := emptyResumeDB }

def stMetaMissing : ResumeSys :=
  { native := [("t1", .missing)], cache := [], db := emptyResumeDB }

def stFaulty : ResumeSys :=
  { native := [("t1", .faulty)], cache := [], db := emptyResumeDB }

/-- Update-flow state: successful update task whose cached result targets
resume 7, which belongs to user 2 while `userA` (id 1) polls. -/
def stUpdateOther : ResumeSys :=
  { native := [("t2", .found .success (some payUpdate7))]
    cache := [{ key := "t2", value := payUpdate7, expiresAt := 600 }]
    db := dbOther }

/-- Update-flow state: pending task whose cached result lacks `resume_id`. -/
def stUpdateNoIdPending : ResumeSys :=
  { native := [("t2", .found .pending none)]
    cache := [{ key := "t2", value := payNoId, expiresAt := 600 }]
    db := dbOwn }

/-- Update-flow state: ready task whose cached result lacks `resume_id`. -/
def stUpdateNoIdReady : ResumeSys :=
  { native := [("t2", .found .success (some payNoId))]
    cache := [{ key := "t2", value := payNoId, expiresAt := 600 }]
    db := dbOwn }

/-- Update-flow state: ready task whose cached `full_name` is one token. -/
def stUpdateMadonna : ResumeSys :=
  { native := [("t2", .found .success (some payMadonna))]
    cache := [{ key := "t2", value := payMadonna, expiresAt := 600 }]
    db := { rows := [{ rowOwn with id := 7 }], nextId := 8, createFault := false } }

def stClReady : CoverLetterSys :=
  { native := [("c1", .found .success (some clPayCreate))]
    cache := [{ key := "c1", value := clPayCreate, expiresAt := 600 }]
    db := emptyClDB }

def stClFailed : CoverLetterSys :=
  { native := [("c1", .found .failure none)]
    cache := [{ key := "c1", value := clPayCreate, expiresAt := 600 }]
    db := emptyClDB }

/-- Submit-endpoint state whose records have exhausted the free tier. -/
def stSubmitCapped : SubmitSys :=
  { db := { rows := [{ rowOwn with update_generate_content_count := 3 }], nextId := 4
            createFault := false }
    cldb := { rows := [{ clRowOwn with update_generate_content_count := 3 }], nextId := 4
              createFault := false }
    subs := [1]
    queued := [] }

/-- Submit-endpoint state whose records still have regenerations left. -/
def stSubmitFresh : SubmitSys :=
  { db := dbOwn, cldb := clDbOwn, subs := [1], queued := [] }

/-! ### Helper lemmas about the cache and the native store -/

theorem find?_key_filter_ne {π : Type} (c : List (CacheEntry π)) (k : String) :
    (c.filter (fun e => e.key != k)).find? (fun e => e.key == k) = none := by
  induction c with
  | nil => rfl
  | cons e t ih =>
    by_cases hek : e.key = k
    · simp [List.filter_cons, hek, ih]
    · simp [List.filter_cons, hek, List.find?_cons, ih]

theorem cacheGet_delete {π : Type} (c : Cache π) (k : String) (now : Nat) :
    cacheGet (cacheDelete c k) k now = none := by
  unfold cacheGet cacheDelete
  rw [find?_key_filter_ne]

theorem fst_key_filter_ne {π : Type} (ns : NativeStore π) (h : String) :
    (ns.filter (fun e => e.fst != h)).find? (fun e => e.fst == h) = none := by
  induction ns with
  | nil => rfl
  | cons e t ih =>
    by_cases hek : e.fst = h
    · simp [List.filter_cons, hek, ih]
    · simp [List.filter_cons, hek, List.find?_cons, ih]

theorem lookupNative_setNative {π : Type} (ns : NativeStore π) (h : String)
    (e : NativeEntry π) : lookupNative (setNative ns h e) h = e := by
  simp [lookupNative, setNative, List.find?_cons]

theorem lookupNative_forget {π : Type} (ns : NativeStore π) (h : String) :
    lookupNative (forgetNative ns h) h = .missing := by
  simp [forgetNative, lookupNative_setNative]

/-! ### Claim theorems -/

/-- C7: on every poll, a backend-unavailable fault on the native-store
lookup yields the 404 task-not-found response with no state change; a
metadata-missing fault yields the 400 metadata-missing response after a
best-effort forget of the handle; any other unexpected fault yields the
500 response after a best-effort revoke and forget — in all three cases
the endpoint returns a response instead of propagating the exception, and
neither the cache nor the record store is touched. -/
theorem poll_backend_exception_taxonomy (u : UserRec) (h : String) (now : Nat)
    (st : ResumeSys) :
    (lookupNative st.native h = .backendGone →
      GeneratedAIContentView.get u h now st = (.taskNotFound, st) ∧
      Resp.code .taskNotFound = 404) ∧
    (lookupNative st.native h = .missing →
      (GeneratedAIContentView.get u h now st).fst = .metadataMissing ∧
      Resp.code .metadataMissing = 400 ∧
      (GeneratedAIContentView.get u h now st).snd.cache = st.cache ∧
      (GeneratedAIContentView.get u h now st).snd.db = st.db ∧
      lookupNative (GeneratedAIContentView.get u h now st).snd.native h =
        NativeEntry.missing) ∧
    (lookupNative st.native h = .faulty →
      (GeneratedAIContentView.get u h now st).fst = .unexpectedError ∧
      Resp.code .unexpectedError = 500 ∧
      (GeneratedAIContentView.get u h now st).snd.cache = st.cache ∧
      (GeneratedAIContentView.get u h now st).snd.db = st.db ∧
      lookupNative (GeneratedAIContentView.get u h now st).snd.native h =
        NativeEntry.missing) := by
  refine ⟨fun hbg => ?_, fun hm => ?_, fun hf => ?_⟩
  · simp [GeneratedAIContentView.get, hbg, Resp.code]
  · simp [GeneratedAIContentView.get, hm, lookupNative_forget, Resp.code]
  · simp [GeneratedAIContentView.get, hf, lookupNative_forget, Resp.code]

theorem poll_backend_exception_taxonomy_witness :
    (GeneratedAIContentView.get userA "t1" 0 stBackendGone = (.taskNotFound, stBackendGone) ∧
      Resp.code .taskNotFound = 404) ∧
    ((GeneratedAIContentView.get userA "t1" 0 stMetaMissing).fst = .metadataMissing ∧
      Resp.code .metadataMissing = 400) ∧
    ((GeneratedAIContentView.get userA "t1" 0 stFaulty).fst = .unexpectedError ∧
      Resp.code .unexpectedError = 500) :=
  ⟨(poll_backend_exception_taxonomy userA "t1" 0 stBackendGone).1 (by decide),
   ⟨((poll_backend_exception_taxonomy userA "t1" 0 stMetaMissing).2.1 (by decide)).1,
    ((poll_backend_exception_taxonomy userA "t1" 0 stMetaMissing).2.1 (by decide)).2.1⟩,
   ⟨((poll_backend_exception_taxonomy userA "t1" 0 stFaulty).2.2 (by decide)).1,
    ((poll_backend_exception_taxonomy userA "t1" 0 stFaulty).2.2 (by decide)).2.1⟩⟩

/-- C8: `save_task_result` of both repositories stores the result with a
fixed time-to-live of exactly 600 seconds: a read strictly before
`now + 600` returns the stored result, a read at or after `now + 600`
finds the entry absent. -/
theorem save_task_result_ttl_600 (c : Cache ResumePayload)
    (c2 : Cache CoverLetterPayload) (k : String) (v : ResumePayload)
    (w : CoverLetterPayload) (now t : Nat) :
    (t < now + 600 →
      ResumeRepository.get_task_result
        (ResumeRepository.save_task_result c k v now) k t = some v) ∧
    (now + 600 ≤ t →
      ResumeRepository.get_task_result
        (ResumeRepository.save_task_result c k v now) k t = none) ∧
    (t < now + 600 →
      CoverLetterRepository.get_task_result
        (CoverLetterRepository.save_task_result c2 k w now) k t = some w) ∧
    (now + 600 ≤ t →
      CoverLetterRepository.get_task_result
        (CoverLetterRepository.save_task_result c2 k w now) k t = none) := by
  refine ⟨fun hlt => ?_, fun hge => ?_, fun hlt => ?_, fun hge => ?_⟩
  · simp [ResumeRepository.get_task_result, ResumeRepository.save_task_result,
      cacheGet, cacheSet, List.find?_cons, hlt]
  · simp [ResumeRepository.get_task_result, ResumeRepository.save_task_result,
      cacheGet, cacheSet, List.find?_cons, Nat.not_lt.mpr hge]
  · simp [CoverLetterRepository.get_task_result, CoverLetterRepository.save_task_result,
      cacheGet, cacheSet, List.find?_cons, hlt]
  · simp [CoverLetterRepository.get_task_result, CoverLetterRepository.save_task_result,
      cacheGet, cacheSet, List.find?_cons, Nat.not_lt.mpr hge]

theorem save_task_result_ttl_600_witness :
    ResumeRepository.get_task_result
      (ResumeRepository.save_task_result [] "k" payCreate 0) "k" 599 = some payCreate ∧
    ResumeRepository.get_task_result
      (ResumeRepository.save_task_result [] "k" payCreate 0) "k" 600 = none ∧
    CoverLetterRepository.get_task_result
      (CoverLetterRepository.save_task_result [] "k" clPayCreate 0) "k" 599 = some clPayCreate ∧
    CoverLetterRepository.get_task_result
      (CoverLetterRepository.save_task_result [] "k" clPayCreate 0) "k" 600 = none :=
  ⟨(save_task_result_ttl_600 [] [] "k" payCreate clPayCreate 0 599).1 (by decide),
   (save_task_result_ttl_600 [] [] "k" payCreate clPayCreate 0 600).2.1 (by decide),
   (save_task_result_ttl_600 [] [] "k" payCreate clPayCreate 0 599).2.2.1 (by decide),
   (save_task_result_ttl_600 [] [] "k" payCreate clPayCreate 0 600).2.2.2 (by decide)⟩

/-- C9: the free-tier regeneration cap is exactly 3, in both the resume
and the cover-letter update-generation endpoints: with a valid request on
an owned record, a regeneration count at or above 3 yields the 400
free-limit response and leaves the queue (and all other state) unchanged,
while a count strictly below 3 enqueues a background task and returns its
handle. -/
theorem free_tier_cap_three (u : UserRec) (rid clid : Nat) (nh : String)
    (st : SubmitSys) (row : ResumeRow) (clrow : CoverLetterRow)
    (hr : st.db.rows.find? (fun x => x.id == rid && x.user == u.id) = some row)
    (hs : st.subs.contains u.id = true)
    (hcl : st.cldb.rows.find? (fun x => x.id == clid && x.user == u.id) = some clrow) :
    (3 ≤ row.update_generate_content_count →
      UpdateGenerateAIContentView.create true u rid nh st = (.freeLimitReached, st) ∧
      Resp.code .freeLimitReached = 400) ∧
    (row.update_generate_content_count < 3 →
      UpdateGenerateAIContentView.create true u rid nh st =
        (.taskQueued nh, { st with queued := nh :: st.queued })) ∧
    (3 ≤ clrow.update_generate_content_count →
      UpdateGenerateAICoverLetterContentView.create true u clid nh st =
        (.freeLimitReached, st)) ∧
    (clrow.update_generate_content_count < 3 →
      UpdateGenerateAICoverLetterContentView.create true u clid nh st =
        (.taskQueued nh, { st with queued := nh :: st.queued })) := by
  have hs2 : u.id ∈ st.subs := by simpa using hs
  refine ⟨fun h3 => ?_, fun h3 => ?_, fun h3 => ?_, fun h3 => ?_⟩
  · simp [UpdateGenerateAIContentView.create, hr, hs2, h3, Resp.code]
  · simp [UpdateGenerateAIContentView.create, hr, hs2, Nat.not_le.mpr h3]
  · simp [UpdateGenerateAICoverLetterContentView.create, hcl, h3]
  · simp [UpdateGenerateAICoverLetterContentView.create, hcl, Nat.not_le.mpr h3]

theorem free_tier_cap_three_witness :
    UpdateGenerateAIContentView.create true userA 3 "t9" stSubmitCapped =
      (.freeLimitReached, stSubmitCapped) ∧
    UpdateGenerateAIContentView.create true userA 3 "t9" stSubmitFresh =
      (.taskQueued "t9", { stSubmitFresh with queued := ["t9"] }) ∧
    UpdateGenerateAICoverLetterContentView.create true userA 3 "t9" stSubmitCapped =
      (.freeLimitReached, stSubmitCapped) ∧
    UpdateGenerateAICoverLetterContentView.create true userA 3 "t9" stSubmitFresh =
      (.taskQueued "t9", { stSubmitFresh with queued := ["t9"] }) :=
  ⟨((free_tier_cap_three userA 3 3 "t9" stSubmitCapped
      { rowOwn with update_generate_content_count := 3 }
      { clRowOwn with update_generate_content_count := 3 }
      (by decide) (by decide) (by decide)).1 (by decide)).1,
   (free_tier_cap_three userA 3 3 "t9" stSubmitFresh rowOwn clRowOwn
      (by decide) (by decide) (by decide)).2.1 (by decide),
   (free_tier_cap_three userA 3 3 "t9" stSubmitCapped
      { rowOwn with update_generate_content_count := 3 }
      { clRowOwn with update_generate_content_count := 3 }
      (by decide) (by decide) (by decide)).2.2.1 (by decide),
   (free_tier_cap_three userA 3 3 "t9" stSubmitFresh rowOwn clRowOwn
      (by decide) (by decide) (by decide)).2.2.2 (by decide)⟩

/-- C5: both create-flow poll endpoints check task state in the strict
order FAILED, READY, PENDING-with-cache, PENDING-without-cache: a failed
handle gets the 400 failure response with the whole state untouched (so no
cache lookup or materialization side effect happened), and a handle that
is simultaneously ready-successful and cached always takes the
materialization path (201 created, or its 500 failure) and never the plain
202 pending response. -/
theorem poll_state_check_order (u : UserRec) (h : String) (now : Nat) :
    (∀ (st : ResumeSys) (r : Option ResumePayload),
      lookupNative st.native h = .found .failure r →
      GeneratedAIContentView.get u h now st = (.taskFailed, st) ∧
      Resp.code .taskFailed = 400) ∧
    (∀ (st : ResumeSys) (r : Option ResumePayload) (d : ResumePayload),
      lookupNative st.native h = .found .success r →
      ResumeRepository.get_task_result st.cache h now = some d →
      ((GeneratedAIContentView.get u h now st).fst = .createdRecord st.db.nextId ∨
       (GeneratedAIContentView.get u h now st).fst = .materializeFailed) ∧
      ∀ s, (GeneratedAIContentView.get u h now st).fst ≠ .pendingResp s) ∧
    (∀ (st : CoverLetterSys) (r : Option CoverLetterPayload),
      lookupNative st.native h = .found .failure r →
      ViewGeneratedCoverLetterContentView.get u h now st = (.taskFailed, st)) ∧
    (∀ (st : CoverLetterSys) (r : Option CoverLetterPayload) (d : CoverLetterPayload),
      lookupNative st.native h = .found .success r →
      CoverLetterRepository.get_task_result st.cache h now = some d →
      ((ViewGeneratedCoverLetterContentView.get u h now st).fst =
          .createdRecord st.db.nextId ∨
       (ViewGeneratedCoverLetterContentView.get u h now st).fst = .materializeFailed) ∧
      ∀ s, (ViewGeneratedCoverLetterContentView.get u h now st).fst ≠ .pendingResp s) := by
  refine ⟨fun st r hl => ?_, fun st r d hl hc => ?_, fun st r hl => ?_,
    fun st r d hl hc => ?_⟩
  · simp [GeneratedAIContentView.get, hl, Resp.code]
  · cases hcf : st.db.createFault <;>
      simp [GeneratedAIContentView.get, hl, hc, TaskState.ready,
        ResumeRepository.create_resume, hcf]
  · simp [ViewGeneratedCoverLetterContentView.get, hl]
  · cases hcf : st.db.createFault <;>
      simp [ViewGeneratedCoverLetterContentView.get, hl, hc, TaskState.ready,
        CoverLetterRepository.create_cover_letter, hcf]

theorem poll_state_check_order_witness :
    (GeneratedAIContentView.get userA "t1" 0 stFailed = (.taskFailed, stFailed) ∧
      Resp.code .taskFailed = 400) ∧
    ((GeneratedAIContentView.get userA "t1" 0 stReady).fst = .createdRecord 1 ∨
      (GeneratedAIContentView.get userA "t1" 0 stReady).fst = .materializeFailed) ∧
    (GeneratedAIContentView.get userA "t1" 0 stReady).fst ≠ .pendingResp .pending ∧
    ViewGeneratedCoverLetterContentView.get userA "c1" 0 stClFailed =
      (.taskFailed, stClFailed) ∧
    ((ViewGeneratedCoverLetterContentView.get userA "c1" 0 stClReady).fst =
        .createdRecord 1 ∨
      (ViewGeneratedCoverLetterContentView.get userA "c1" 0 stClReady).fst =
        .materializeFailed) :=
  ⟨(poll_state_check_order userA "t1" 0).1 stFailed none (by decide),
   ((poll_state_check_order userA "t1" 0).2.1 stReady (some payCreate) payCreate
      (by decide) (by decide)).1,
   ((poll_state_check_order userA "t1" 0).2.1 stReady (some payCreate) payCreate
      (by decide) (by decide)).2 .pending,
   (poll_state_check_order userA "c1" 0).2.2.1 stClFailed none (by decide),
   ((poll_state_check_order userA "c1" 0).2.2.2 stClReady (some clPayCreate) clPayCreate
      (by decide) (by decide)).1⟩

/-- C6: when the create-flow materialization throws (the record-store
INSERT faults), the poll endpoint returns the 500 failure response with
the entire state unchanged — the cache entry is not deleted and the native
result is not forgotten — on both the ready-with-cache branch and the
pending-but-cache-present branch, so a later poll can retry. -/
theorem create_poll_failure_keeps_cache (u : UserRec) (h : String) (now : Nat)
    (st : ResumeSys) (r : Option ResumePayload) (d : ResumePayload)
    (hc : ResumeRepository.get_task_result st.cache h now = some d)
    (hf : st.db.createFault = true) :
    (lookupNative st.native h = .found .success r →
      GeneratedAIContentView.get u h now st = (.materializeFailed, st)) ∧
    (∀ s, lookupNative st.native h = .found s r → s.ready = false →
      GeneratedAIContentView.get u h now st = (.materializeFailed, st)) ∧
    Resp.code .materializeFailed = 500 := by
  refine ⟨fun hl => ?_, fun s hl hs => ?_, rfl⟩
  · simp [GeneratedAIContentView.get, hl, hc, TaskState.ready,
      ResumeRepository.create_resume, hf]
  · have hnf : s ≠ TaskState.failure := by
      intro he; rw [he] at hs; exact absurd hs (by decide)
    simp [GeneratedAIContentView.get, hl, hc, hs, hnf,
      ResumeRepository.create_resume, hf]

theorem create_poll_failure_keeps_cache_witness :
    GeneratedAIContentView.get userA "t1" 0 stReadyFault =
      (.materializeFailed, stReadyFault) ∧
    GeneratedAIContentView.get userA "t1" 0 stPendingCachedFault =
      (.materializeFailed, stPendingCachedFault) :=
  ⟨(create_poll_failure_keeps_cache userA "t1" 0 stReadyFault (some payCreate) payCreate
      (by decide) (by decide)).1 (by decide),
   (create_poll_failure_keeps_cache userA "t1" 0 stPendingCachedFault (some payCreate)
      payCreate (by decide) (by decide)).2.1 .pending (by decide) (by decide)⟩

/-- C10: resume update materialization splits `full_name` (default
"John Doe") on spaces and indexes tokens 0 and 1; when the cached
successful result's `full_name` is a single token, the index into token 1
raises IndexError inside `update_resume`, the record store is never
reached, and the update poll endpoint returns the 500 failed-to-update
response with the state unchanged. -/
theorem update_single_token_name_500 (u : UserRec) (h : String) (now : Nat)
    (st : ResumeSys) (r : Option ResumePayload) (d : ResumePayload) (s : String)
    (hl : lookupNative st.native h = .found .success r)
    (hc : ResumeRepository.get_task_result st.cache h now = some d)
    (hid : truthyId d.resume_id = true)
    (hname : d.parsed_content.full_name = some s)
    (hone : pySplit s = [s]) :
    ResumeRepository.update_resume (d.resume_id.getD 0) d.original_content
      d.parsed_content u st.db now = Except.error PyExc.indexError ∧
    UpdatedGeneratedAIContentView.get u h now st = (.materializeFailed, st) ∧
    Resp.code .materializeFailed = 500 := by
  have hup : ResumeRepository.update_resume (d.resume_id.getD 0) d.original_content
      d.parsed_content u st.db now = Except.error PyExc.indexError := by
    simp [ResumeRepository.update_resume, hname, hone]
  refine ⟨hup, ?_, rfl⟩
  simp [UpdatedGeneratedAIContentView.get, hl, hc, hid, hup]

theorem update_single_token_name_500_witness :
    ResumeRepository.update_resume 7 "regen-md" payMadonna.parsed_content userA
      stUpdateMadonna.db 0 = Except.error PyExc.indexError ∧
    UpdatedGeneratedAIContentView.get userA "t2" 0 stUpdateMadonna =
      (.materializeFailed, stUpdateMadonna) :=
  ⟨(update_single_token_name_500 userA "t2" 0 stUpdateMadonna (some payMadonna)
      payMadonna "Madonna" (by decide) (by decide) (by decide) (by decide) (by decide)).1,
   (update_single_token_name_500 userA "t2" 0 stUpdateMadonna (some payMadonna)
      payMadonna "Madonna" (by decide) (by decide) (by decide) (by decide) (by decide)).2.1⟩

/-- C4 counterexample: a poll of a pending handle whose cached result
lacks `resume_id` returns the plain 202 pending response with no state
change — not a client-error (400-equivalent) response as the claim
requires for every branch that can observe such a result. -/
theorem update_poll_missing_id_counterexample :
    UpdatedGeneratedAIContentView.get userA "t2" 0 stUpdateNoIdPending =
      (.pendingResp .pending, stUpdateNoIdPending) ∧
    Resp.code (.pendingResp .pending) = 202 ∧ (202 : Nat) ≠ 400 := by
  exact ⟨by decide, rfl, by decide⟩

/-- C4 amended: in the update flow, a successful ready result whose cached
payload lacks the target `resume_id` yields the 400 missing-identifier
response and no record-store write; but on the pending-but-cache-present
branch the same condition silently falls through to the 202 pending
response (state unchanged), not a client error. -/
theorem update_poll_missing_id_amended (u : UserRec) (h : String) (now : Nat)
    (st : ResumeSys) (r : Option ResumePayload) (d : ResumePayload)
    (hd : truthyId d.resume_id = false)
    (hc : ResumeRepository.get_task_result st.cache h now = some d) :
    (lookupNative st.native h = .found .success r →
      (UpdatedGeneratedAIContentView.get u h now st).fst = .recordIdMissing ∧
      Resp.code .recordIdMissing = 400 ∧
      (UpdatedGeneratedAIContentView.get u h now st).snd.db = st.db) ∧
    (∀ s, lookupNative st.native h = .found s r → s.ready = false →
      UpdatedGeneratedAIContentView.get u h now st = (.pendingResp s, st)) := by
  refine ⟨fun hl => ?_, fun s hl hs => ?_⟩
  · simp [UpdatedGeneratedAIContentView.get, hl, hc, hd, TaskState.ready, Resp.code]
  · have hnf : s ≠ TaskState.failure := by
      intro he; rw [he] at hs; exact absurd hs (by decide)
    simp [UpdatedGeneratedAIContentView.get, hl, hc, hs, hnf, hd]

theorem update_poll_missing_id_amended_witness :
    ((UpdatedGeneratedAIContentView.get userA "t2" 0 stUpdateNoIdReady).fst =
        .recordIdMissing ∧
      (UpdatedGeneratedAIContentView.get userA "t2" 0 stUpdateNoIdReady).snd.db =
        stUpdateNoIdReady.db) ∧
    UpdatedGeneratedAIContentView.get userA "t2" 0 stUpdateNoIdPending =
      (.pendingResp .pending, stUpdateNoIdPending) :=
  ⟨⟨((update_poll_missing_id_amended userA "t2" 0 stUpdateNoIdReady (some payNoId)
        payNoId (by decide) (by decide)).1 (by decide)).1,
    ((update_poll_missing_id_amended userA "t2" 0 stUpdateNoIdReady (some payNoId)
        payNoId (by decide) (by decide)).1 (by decide)).2.2⟩,
   (update_poll_missing_id_amended userA "t2" 0 stUpdateNoIdPending none
      payNoId (by decide) (by decide)).2 .pending (by decide) (by decide)⟩

/-- C2: the resume-side `update_resume` filters the write only by record
id — the `user` argument is ignored — so a materialization on behalf of
user 1 against a handle referencing user 2's resume MUTATES user 2's row
(first_name changes from "Alice" to "Jane") and the endpoint then reports
404 ownership-not-found with the foreign row already rewritten; the
cover-letter `update_cover_letter`, whose filter does include the user,
rejects the same write (returns false, rows unchanged). -/
theorem resume_update_ignores_ownership :
    ResumeRepository.update_resume 7 "regen-md" pcJane userA dbOther 5 =
      Except.ok (true, { dbOther with
        rows := [ResumeRepository.applyResumeUpdate rowOther "Jane" "Doe"
          "regen-md" pcJane 5] }) ∧
    (ResumeRepository.applyResumeUpdate rowOther "Jane" "Doe" "regen-md"
      pcJane 5).first_name = "Jane" ∧
    rowOther.first_name = "Alice" ∧ rowOther.user = 2 ∧ userA.id = 1 ∧
    (UpdatedGeneratedAIContentView.get userA "t2" 0 stUpdateOther).fst =
      .ownershipNotFound ∧
    (UpdatedGeneratedAIContentView.get userA "t2" 0 stUpdateOther).snd.db.rows.map
      (fun q => q.first_name) = ["Jane"] ∧
    CoverLetterRepository.update_cover_letter 7 "regen-md" clpcJane userA
      clDbOther 5 = Except.ok (false, { clDbOther with rows := [clRowOther] }) := by
  exact ⟨rfl, rfl, rfl, rfl, rfl, rfl, rfl, rfl⟩

/-- C3 counterexample: executing the update worker alone — no poll and no
materialization have happened — already increments the durable record's
regeneration counter from 1 to 2, so the counter is NOT unchanged before
the poll endpoint materializes the result. -/
theorem worker_increments_counter_before_poll :
    update_resume_content_task 3 1 [userA] genJane dbOwn =
      Except.ok
        ({ original_content := "regen-md", parsed_content := pcJane, resume_id := some 3 },
         { dbOwn with rows := [{ rowOwn with update_generate_content_count := 2 }] }) ∧
    dbOwn.rows.map (fun q => q.update_generate_content_count) = [1] := by
  exact ⟨rfl, rfl⟩

/-- C3 amended: the background worker increments the target record's
regeneration counter at task-execution time — the durable store already
shows the incremented counter before any poll materializes the result —
while the poll-time materialization write (`update_resume`) never changes
the counter; the task result additionally echoes the target record id. -/
theorem worker_counter_increment_timing (rid uid : Nat) (users : List UserRec)
    (gen : GenResult) (db db2 : ResumeDB) (p : ResumePayload)
    (hrun : update_resume_content_task rid uid users gen db = Except.ok (p, db2)) :
    p.resume_id = some rid ∧
    db2.rows.map (fun q => q.update_generate_content_count) =
      db.rows.map (fun q => if q.id == rid && q.user == uid then
        q.update_generate_content_count + 1 else q.update_generate_content_count) ∧
    ∀ (rid2 : Nat) (orig : String) (c : ParsedResume) (u2 : UserRec)
      (dbx : ResumeDB) (now : Nat) (b : Bool) (db3 : ResumeDB),
      ResumeRepository.update_resume rid2 orig c u2 dbx now = Except.ok (b, db3) →
      db3.rows.map (fun q => q.update_generate_content_count) =
        dbx.rows.map (fun q => q.update_generate_content_count) := by
  have hpres : ∀ (rid2 : Nat) (orig : String) (c : ParsedResume) (u2 : UserRec)
      (dbx : ResumeDB) (now : Nat) (b : Bool) (db3 : ResumeDB),
      ResumeRepository.update_resume rid2 orig c u2 dbx now = Except.ok (b, db3) →
      db3.rows.map (fun q => q.update_generate_content_count) =
        dbx.rows.map (fun q => q.update_generate_content_count) := by
    intro rid2 orig c u2 dbx now b db3 hup
    rcases hg : (pySplit (c.full_name.getD "John Doe"))[1]? with _ | last
    · simp [ResumeRepository.update_resume, hg] at hup
    · simp only [ResumeRepository.update_resume, hg, Except.ok.injEq,
        Prod.mk.injEq] at hup
      rw [← hup.2, List.map_map]
      refine List.map_congr_left fun (q : ResumeRow) _ => ?_
      by_cases hq : (q.id == rid2) = true
      · simp [hq, ResumeRepository.applyResumeUpdate, Function.comp]
      · simp [hq, Function.comp]
  rcases hu : users.find? (fun x => x.id == uid) with _ | user
  · simp [update_resume_content_task, hu] at hrun
  · rcases hq : db.rows.find? (fun q => q.id == rid && q.user == user.id) with _ | r0
    · simp [update_resume_content_task, hu, hq] at hrun
    · simp only [update_resume_content_task, hu, hq, Except.ok.injEq,
        Prod.mk.injEq] at hrun
      have huid : user.id = uid := by
        have hpr := List.find?_some hu
        simpa using hpr
      refine ⟨by rw [← hrun.1], ?_, hpres⟩
      rw [← hrun.2, List.map_map]
      refine List.map_congr_left fun (q : ResumeRow) _ => ?_
      rw [huid]
      by_cases hcond : (q.id == rid && q.user == uid) = true
      · simp [hcond, Function.comp]
      · simp [hcond, Function.comp]

theorem worker_counter_increment_timing_witness :
    ({ original_content := "regen-md", parsed_content := pcJane,
       resume_id := some 3 } : ResumePayload).resume_id = some 3 ∧
    ({ dbOwn with
       rows := [{ rowOwn with update_generate_content_count := 2 }] } : ResumeDB).rows.map
        (fun q => q.update_generate_content_count) =
      dbOwn.rows.map (fun q => if q.id == 3 && q.user == 1 then
        q.update_generate_content_count + 1 else q.update_generate_content_count) :=
  ⟨(worker_counter_increment_timing 3 1 [userA] genJane dbOwn
      { dbOwn with rows := [{ rowOwn with update_generate_content_count := 2 }] }
      { original_content := "regen-md", parsed_content := pcJane, resume_id := some 3 }
      rfl).1,
   (worker_counter_increment_timing 3 1 [userA] genJane dbOwn
      { dbOwn with rows := [{ rowOwn with update_generate_content_count := 2 }] }
      { original_content := "regen-md", parsed_content := pcJane, resume_id := some 3 }
      rfl).2.1⟩

/-- C1: a poll of a handle in success state with its result cached and a
healthy record store materializes exactly once — the poll returns 201 with
the new record, the table gains exactly one row, the cache entry is
deleted and the native result forgotten in the same step — and every poll
of a handle whose native metadata is missing (in particular every
subsequent poll of this handle) returns the explicit 400
task-metadata-missing failure, touching neither the record store nor the
cache and leaving the handle metadata missing, so N polls of a completed
handle yield one created record and N-1 failures. -/
theorem poll_materializes_exactly_once (u : UserRec) (h : String) (now : Nat)
    (st : ResumeSys) (r : Option ResumePayload) (d : ResumePayload)
    (hl : lookupNative st.native h = .found .success r)
    (hc : ResumeRepository.get_task_result st.cache h now = some d)
    (hf : st.db.createFault = false) :
    (GeneratedAIContentView.get u h now st).fst = .createdRecord st.db.nextId ∧
    (GeneratedAIContentView.get u h now st).snd.db.rows.length =
      st.db.rows.length + 1 ∧
    lookupNative (GeneratedAIContentView.get u h now st).snd.native h =
      NativeEntry.missing ∧
    (∀ t2, ResumeRepository.get_task_result
      (GeneratedAIContentView.get u h now st).snd.cache h t2 = none) ∧
    (∀ (st3 : ResumeSys) (t3 : Nat),
      lookupNative st3.native h = NativeEntry.missing →
      (GeneratedAIContentView.get u h t3 st3).fst = .metadataMissing ∧
      Resp.code .metadataMissing = 400 ∧
      (GeneratedAIContentView.get u h t3 st3).snd.db = st3.db ∧
      (GeneratedAIContentView.get u h t3 st3).snd.cache = st3.cache ∧
      lookupNative (GeneratedAIContentView.get u h t3 st3).snd.native h =
        NativeEntry.missing) := by
  refine ⟨?_, ?_, ?_, ?_, fun st3 t3 hm => ?_⟩
  · simp [GeneratedAIContentView.get, hl, hc, TaskState.ready,
      ResumeRepository.create_resume, hf]
  · simp [GeneratedAIContentView.get, hl, hc, TaskState.ready,
      ResumeRepository.create_resume, hf]
  · simp [GeneratedAIContentView.get, hl, hc, TaskState.ready,
      ResumeRepository.create_resume, hf, lookupNative_forget]
  · intro t2
    have hc2 : cacheGet st.cache h now = some d := hc
    simp [GeneratedAIContentView.get, hl, hc2, TaskState.ready,
      ResumeRepository.create_resume, hf, ResumeRepository.delete_task,
      ResumeRepository.get_task_result, cacheGet_delete]
  · simp [GeneratedAIContentView.get, hm, lookupNative_forget, Resp.code]

theorem poll_materializes_exactly_once_witness :
    (GeneratedAIContentView.get userA "t1" 0 stReady).fst = .createdRecord 1 ∧
    (GeneratedAIContentView.get userA "t1" 0 stReady).snd.db.rows.length = 1 ∧
    lookupNative (GeneratedAIContentView.get userA "t1" 0 stReady).snd.native "t1" =
      NativeEntry.missing ∧
    (GeneratedAIContentView.get userA "t1" 5
      (GeneratedAIContentView.get userA "t1" 0 stReady).snd).fst = .metadataMissing ∧
    (GeneratedAIContentView.get userA "t1" 5
      (GeneratedAIContentView.get userA "t1" 0 stReady).snd).snd.db =
      (GeneratedAIContentView.get userA "t1" 0 stReady).snd.db :=
  ⟨(poll_materializes_exactly_once userA "t1" 0 stReady (some payCreate) payCreate
      (by decide) (by decide) (by decide)).1,
   (poll_materializes_exactly_once userA "t1" 0 stReady (some payCreate) payCreate
      (by decide) (by decide) (by decide)).2.1,
   (poll_materializes_exactly_once userA "t1" 0 stReady (some payCreate) payCreate
      (by decide) (by decide) (by decide)).2.2.1,
   ((poll_materializes_exactly_once userA "t1" 0 stReady (some payCreate) payCreate
      (by decide) (by decide) (by decide)).2.2.2.2
      (GeneratedAIContentView.get userA "t1" 0 stReady).snd 5
      (poll_materializes_exactly_once userA "t1" 0 stReady (some payCreate) payCreate
        (by decide) (by decide) (by decide)).2.2.1).1,
   ((poll_materializes_exactly_once userA "t1" 0 stReady (some payCreate) payCreate
      (by decide) (by decide) (by decide)).2.2.2.2
      (GeneratedAIContentView.get userA "t1" 0 stReady).snd 5
      (poll_materializes_exactly_once userA "t1" 0 stReady (some payCreate) payCreate
        (by decide) (by decide) (by decide)).2.2.1).2.2.1⟩

end Autoresum
